import Mathlib

/-!
# FTL HTTP/JSON API layer: envelope, request introspection, domain-list and network handlers

A shallow embedding of `src/webserver/http-common.c`, `src/api/list.c` and
`src/api/network.c`.

* JSON values built through cJSON are values of the inductive type `JSON`; an object is the
  list of its members in insertion order.
* A response written to the connection is a `Response`: the HTTP status code together with the
  JSON value that is serialised into the body.
* The persistent store (gravity database, network table) is an external collaborator.  It is
  represented by a `World` of scripted answers, and every call a handler makes to it is
  appended to a log of `StoreCall`s which the handler returns next to its response.
* C strings are lists of characters; the terminating NUL is the end of the list.
-/

namespace FTL

/-! ## JSON values and the builder macros -/

/-- JSON values as built by cJSON.  Numbers are the integers the handlers store in them. -/
inductive JSON where
  | null : JSON
  | bool (b : Bool) : JSON
  | number (n : Int) : JSON
  | string (s : String) : JSON
  | array (items : List JSON) : JSON
  | object (members : List (String × JSON)) : JSON

/-- What a handler writes back: the HTTP status code and the JSON value sent as the body. -/
structure Response where
  code : Nat
  body : JSON

/-- Modelled from the spec: `JSON_NEW_OBJ` of `json_macros.h` (not among the sources), a
fresh empty JSON object. -/
def JSON_NEW_OBJ : JSON := JSON.object []

/-- Modelled from the spec: `JSON_NEW_ARRAY` of `json_macros.h` (not among the sources), a
fresh empty JSON array. -/
def JSON_NEW_ARRAY : JSON := JSON.array []

/-- Modelled from the spec: `JSON_OBJ_ADD_ITEM` of `json_macros.h` (not among the sources):
the item becomes the last member of the object, as a nested value. -/
def JSON_OBJ_ADD_ITEM (obj : JSON) (key : String) (item : JSON) : JSON :=
  match obj with
  | JSON.object members => JSON.object (members ++ [(key, item)])
  | other => other

/-- Modelled from the spec: `JSON_OBJ_ADD_NULL` of `json_macros.h` (not among the sources). -/
def JSON_OBJ_ADD_NULL (obj : JSON) (key : String) : JSON :=
  JSON_OBJ_ADD_ITEM obj key JSON.null

/-- Modelled from the spec: `JSON_OBJ_REF_STR` of `json_macros.h` (not among the sources):
adds a string member that refers to the given C string. -/
def JSON_OBJ_REF_STR (obj : JSON) (key : String) (str : String) : JSON :=
  JSON_OBJ_ADD_ITEM obj key (JSON.string str)

/-- Modelled from the spec: `JSON_OBJ_COPY_STR` of `json_macros.h` (not among the sources):
adds a string member holding a copy of the C string; an absent (NULL) string, which the data
model allows for a comment, becomes JSON null. -/
def JSON_OBJ_COPY_STR (obj : JSON) (key : String) (str : Option String) : JSON :=
  match str with
  | some s => JSON_OBJ_ADD_ITEM obj key (JSON.string s)
  | none => JSON_OBJ_ADD_ITEM obj key JSON.null

/-- Modelled from the spec: `JSON_OBJ_ADD_BOOL` of `json_macros.h` (not among the sources). -/
def JSON_OBJ_ADD_BOOL (obj : JSON) (key : String) (b : Bool) : JSON :=
  JSON_OBJ_ADD_ITEM obj key (JSON.bool b)

/-- Modelled from the spec: `JSON_OBJ_ADD_NUMBER` of `json_macros.h` (not among the
sources). -/
def JSON_OBJ_ADD_NUMBER (obj : JSON) (key : String) (n : Int) : JSON :=
  JSON_OBJ_ADD_ITEM obj key (JSON.number n)

/-- Modelled from the spec: `JSON_ARRAY_ADD_ITEM` of `json_macros.h` (not among the
sources): the item becomes the last element of the array. -/
def JSON_ARRAY_ADD_ITEM (arr : JSON) (item : JSON) : JSON :=
  match arr with
  | JSON.array items => JSON.array (items ++ [item])
  | other => other

/-- Modelled from the spec: `JSON_ARRAY_COPY_STR` of `json_macros.h` (not among the
sources): appends a copy of the string to the array. -/
def JSON_ARRAY_COPY_STR (arr : JSON) (str : String) : JSON :=
  JSON_ARRAY_ADD_ITEM arr (JSON.string str)

/-- Modelled from the spec: `JSON_SEND_OBJECT_CODE` of `json_macros.h` (not among the
sources).  `send_json_error` hands it the finished `{error: ...}` object and the spec gives
the result as `Response(code, {error: ...})`: the object is sent as it is under the given
status code. -/
def JSON_SEND_OBJECT_CODE (json : JSON) (code : Nat) : Response :=
  { code := code, body := json }

/-- Modelled from the spec: `JSON_SEND_OBJECT` of `json_macros.h` (not among the sources),
following the spec's `success(payload) -> Response(200, {data: payload})`. -/
def JSON_SEND_OBJECT (json : JSON) : Response :=
  { code := 200, body := JSON.object [("data", json)] }

mutual
/-- Whether an array occurs anywhere inside a JSON value. -/
def JSON.hasArray : JSON → Bool
  | JSON.null => false
  | JSON.bool _ => false
  | JSON.number _ => false
  | JSON.string _ => false
  | JSON.array _ => true
  | JSON.object members => JSON.hasArrayMembers members
/-- Whether an array occurs inside one of the members of an object. -/
def JSON.hasArrayMembers : List (String × JSON) → Bool
  | [] => false
  | (_, v) :: rest => v.hasArray || JSON.hasArrayMembers rest
end

/-! ## `http-common.c` -/

/-- The function `send_json_error` of `http-common.c`: `data` is `none` for a NULL pointer. -/
def send_json_error (code : Nat) (key : String) (message : String) (data : Option JSON) :
    Response :=
  let json := JSON_NEW_OBJ
  let error := JSON_NEW_OBJ
  let error := JSON_OBJ_REF_STR error "key" key
  let error := JSON_OBJ_REF_STR error "message" message
  let error :=
    match data with
    | none => JSON_OBJ_ADD_NULL error "data"
    | some d => JSON_OBJ_ADD_ITEM error "data" d
  let json := JSON_OBJ_ADD_ITEM json "error" error
  JSON_SEND_OBJECT_CODE json code

/-- The function `send_json_unauthorized` of `http-common.c`. -/
def send_json_unauthorized : Response :=
  send_json_error 401 "unauthorized" "Unauthorized" none

/-! ### C strings and `startsWith` -/

/-- The character of a C string at an index; `none` is the terminating NUL. -/
def charAt (s : List Char) (i : Nat) : Option Char := s.get? i

/-- The C library function `strlen`. -/
def strlen (s : List Char) : Nat := s.length

/-- The C library function `strncmp`, reduced to what the callers test: whether the first `n`
characters of the two strings (compared up to and including a terminating NUL) are equal. -/
def strncmp_eq : List Char → List Char → Nat → Bool
  | _, _, 0 => true
  | [], [], _ + 1 => true
  | [], _ :: _, _ + 1 => false
  | _ :: _, [], _ + 1 => false
  | a :: as, b :: bs, n + 1 => if a = b then strncmp_eq as bs n else false

/-- The function `startsWith` of `http-common.c`.  The result `none` is the NULL pointer;
`uri + strlen(path) + 1` is the URI without its first `strlen(path) + 1` characters. -/
def startsWith (path uri : List Char) : Option (List Char) :=
  if strncmp_eq path uri (strlen path) then
    if charAt uri (strlen path) = some '/' then
      -- Path match with argument after ".../"
      some (uri.drop (strlen path + 1))
    else
      -- Path match without argument
      some []
  else
    -- Path does not match
    none

/-! ### The connection -/

/-- The HTTP methods told apart by `http_method`. -/
inductive http_method_t where
  | HTTP_UNKNOWN | HTTP_GET | HTTP_POST | HTTP_PUT | HTTP_DELETE
  deriving DecidableEq, Repr

/-- What the handlers read from a `struct mg_connection`: the request line, the request body
still to be read and the verdict of the external authorization check. -/
structure Conn where
  /-- The field `request_method` of the request info. -/
  request_method : String
  /-- The field `local_uri` of the request info. -/
  local_uri : List Char
  /-- The field `query_string` of the request info, `none` for NULL. -/
  query_string : Option (List Char)
  /-- The bytes of the request body. -/
  body : List Char
  /-- The value `check_client_auth` returns for this request (negative: rejected). -/
  auth : Int

/-- Modelled from the spec: `check_client_auth` is only declared in `routes.h`; the
authorization gate is a synchronous check whose verdict belongs to the request. -/
def check_client_auth (conn : Conn) : Int := conn.auth

/-- The function `http_method` of `http-common.c`. -/
def http_method (conn : Conn) : http_method_t :=
  if conn.request_method = "GET" then http_method_t.HTTP_GET
  else if conn.request_method = "DELETE" then http_method_t.HTTP_DELETE
  else if conn.request_method = "PUT" then http_method_t.HTTP_PUT
  else if conn.request_method = "POST" then http_method_t.HTTP_POST
  else http_method_t.HTTP_UNKNOWN

/-- Modelled from the spec: `mg_read` of the embedded web server (not among the sources)
"reads up to" `len` bytes from the body: it hands back the first `len` bytes of the body, or
the whole body when that is shorter, and their number. -/
def mg_read (conn : Conn) (len : Nat) : List Char × Int :=
  (conn.body.take len, ((conn.body.take len).length : Int))

/-- The function `http_get_payload` of `http-common.c`.  `MAX_PAYLOAD_BYTES` is a constant of
`http-common.h`, which is not among the sources, and is a parameter here; `payloadIsNull`
says that the caller passed no buffer.  The result is the content of `payload` when the
function returns true and `none` when it returns false; for a GET with a query string it is
what `strncpy` copies, the first `MAX_PAYLOAD_BYTES - 1` characters of the query string. -/
def http_get_payload (MAX_PAYLOAD_BYTES : Nat) (conn : Conn) (payloadIsNull : Bool) :
    Option (List Char) :=
  -- We do not want to extract any payload here
  if payloadIsNull then none
  else
    let method := http_method conn
    match method, conn.query_string with
    | http_method_t.HTTP_GET, some query_string =>
      some (query_string.take (MAX_PAYLOAD_BYTES - 1))
    | _, _ =>
      -- POST, PUT, PATCH
      let (payload, data_len) := mg_read conn (MAX_PAYLOAD_BYTES - 1)
      if data_len < 1 ∨ data_len ≥ (MAX_PAYLOAD_BYTES : Int) then none
      else some payload

/-- The function `get_POST_JSON` of `http-common.c`.  `cJSON_Parse` belongs to the JSON
library, which is not among the sources, and is a parameter. -/
def get_POST_JSON (cJSON_Parse : List Char → Option JSON) (conn : Conn) : Option JSON :=
  let (buffer, data_len) := mg_read conn (1024 - 1)
  if data_len < 1 ∨ data_len ≥ (1024 : Int) then none
  else cJSON_Parse buffer

/-! ## The store contract -/

/-- The table identifiers of `gravity-db.h` (not among the sources) returned by
`getTableType`. -/
inductive TableType where
  | GRAVITY_DOMAINLIST_EXACT_WHITELIST
  | GRAVITY_DOMAINLIST_REGEX_WHITELIST
  | GRAVITY_DOMAINLIST_EXACT_BLACKLIST
  | GRAVITY_DOMAINLIST_REGEX_BLACKLIST
  deriving DecidableEq, Repr

/-- The record `domainrecord` filled in by `gravityDB_readTableGetDomain`. -/
structure domainrecord where
  domain : String
  enabled : Bool
  date_added : Int
  date_modified : Int
  comment : Option String

/-- The record `network_record` filled in by `networkTable_readDevicesGetRecord`. -/
structure network_record where
  id : Int
  hwaddr : String
  iface : String
  name : String
  firstSeen : Int
  lastQuery : Int
  numQueries : Int
  macVendor : String

/-- The record `network_addresses_record` filled in by `networkTable_readIPsGetRecord`. -/
structure network_addresses_record where
  ip : String

/-- One answer of a cursor step function (`bool f(record *, const char **message)`): either
it returns true and fills in the next row, or it fails: it returns false and stores a
diagnostic message when the store has one.  A cursor whose answers are used up is exhausted:
the step returns false and leaves the message alone. -/
inductive Step (ρ : Type) where
  | row (r : ρ) : Step ρ
  | fail (msg : Option String) : Step ρ

/-- The answer of a function that opens a cursor (`bool f(..., const char **message)`): it
returns true and the cursor will give the listed answers, or it returns false and stores a
diagnostic message when the store has one. -/
inductive Open (ρ : Type) where
  | ok (steps : List (Step ρ)) : Open ρ
  | fail (msg : Option String) : Open ρ

/-- Modelled from the spec: the persistent store behind `gravity-db.h` and `network-table.h`
(not among the sources), consumed through a prepare/step/finalize contract that returns a
status and an optional message.  A world fixes what the store answers to each call. -/
structure World where
  /-- The answer of `gravityDB_readTable(type, &sql_msg)`. -/
  readTable : TableType → Open domainrecord
  /-- The answer of `gravityDB_addToTable(type, domain, enabled, comment, &sql_msg)`: the
  returned status and the message stored on failure. -/
  addToTable : TableType → String → Bool → Option String → Bool × Option String
  /-- The answer of `gravityDB_delFromTable(type, domain, &sql_msg)`. -/
  delFromTable : TableType → String → Bool × Option String
  /-- The answer of `networkTable_readDevices(&sql_msg)`. -/
  readDevices : Open network_record
  /-- The answer of `networkTable_readIPs(id, &sql_msg)`. -/
  readIPs : Int → Open network_addresses_record

/-- The calls a handler makes to the store, in the order they are logged. -/
inductive StoreCall where
  | gravityDB_readTable (type : TableType)
  | gravityDB_readTableGetDomain
  | gravityDB_readTableFinalize
  | gravityDB_addToTable (type : TableType) (domain : String) (enabled : Bool)
      (comment : Option String)
  | gravityDB_delFromTable (type : TableType) (domain : String)
  | networkTable_readDevices
  | networkTable_readDevicesGetRecord
  | networkTable_readDevicesFinalize
  | networkTable_readIPs (id : Int)
  | networkTable_readIPsGetRecord
  | networkTable_readIPsFinalize
  deriving DecidableEq, Repr

/-- The effect of a store call on the caller's `sql_msg` variable: a stored message replaces
it, otherwise it keeps its value. -/
def setMsg (stored : Option String) (sql_msg : Option String) : Option String :=
  match stored with
  | some m => some m
  | none => sql_msg

/-- The object `{sql_msg: ...}` the handlers build for a failure: the message as a string
when there is one, JSON null otherwise. -/
def sqlMsgMember (json : JSON) (sql_msg : Option String) : JSON :=
  match sql_msg with
  | some m => JSON_OBJ_REF_STR json "sql_msg" m
  | none => JSON_OBJ_ADD_NULL json "sql_msg"

/-! ## `api/list.c` -/

/-- The function `getTableType` of `list.c`. -/
def getTableType (whitelist exact : Bool) : TableType :=
  if whitelist then
    if exact then TableType.GRAVITY_DOMAINLIST_EXACT_WHITELIST
    else TableType.GRAVITY_DOMAINLIST_REGEX_WHITELIST
  else
    if exact then TableType.GRAVITY_DOMAINLIST_EXACT_BLACKLIST
    else TableType.GRAVITY_DOMAINLIST_REGEX_BLACKLIST

/-- The body of the `while` loop of `api_dns_domainlist_read`: the JSON object of a row. -/
def domainItem (domain : domainrecord) : JSON :=
  let item := JSON_NEW_OBJ
  let item := JSON_OBJ_COPY_STR item "domain" (some domain.domain)
  let item := JSON_OBJ_ADD_BOOL item "enabled" domain.enabled
  let item := JSON_OBJ_ADD_NUMBER item "date_added" domain.date_added
  let item := JSON_OBJ_ADD_NUMBER item "date_modified" domain.date_modified
  let item := JSON_OBJ_COPY_STR item "comment" domain.comment
  item

/-- The `while(gravityDB_readTableGetDomain(&domain, &sql_msg))` loop of
`api_dns_domainlist_read`, run on the answers of the cursor: the array built, the final value
of `sql_msg` and the log. -/
def readTableLoop : List (Step domainrecord) → JSON → Option String → List StoreCall →
    JSON × Option String × List StoreCall
  | [], json, sql_msg, log =>
    (json, sql_msg, log ++ [StoreCall.gravityDB_readTableGetDomain])
  | Step.fail msg :: _, json, sql_msg, log =>
    (json, setMsg msg sql_msg, log ++ [StoreCall.gravityDB_readTableGetDomain])
  | Step.row domain :: rest, json, sql_msg, log =>
    readTableLoop rest (JSON_ARRAY_ADD_ITEM json (domainItem domain)) sql_msg
      (log ++ [StoreCall.gravityDB_readTableGetDomain])

/-- The function `api_dns_domainlist_read` of `list.c`: the response and the log of store
calls extended by the calls of this run. -/
def api_dns_domainlist_read (w : World) (exact whitelist : Bool) (log : List StoreCall) :
    Response × List StoreCall :=
  let type := getTableType whitelist exact
  let sql_msg : Option String := none
  let log := log ++ [StoreCall.gravityDB_readTable type]
  match w.readTable type with
  | Open.fail msg =>
    let sql_msg := setMsg msg sql_msg
    let json := JSON_NEW_OBJ
    -- Add SQL message (may be NULL = not available)
    let json := sqlMsgMember json sql_msg
    (send_json_error 402 "database_error" "Could not read domains from database table"
      (some json), log)
  | Open.ok steps =>
    let json := JSON_NEW_ARRAY
    let (json, sql_msg, log) := readTableLoop steps json sql_msg log
    let log := log ++ [StoreCall.gravityDB_readTableFinalize]
    match sql_msg with
    | none =>
      -- No error
      (JSON_SEND_OBJECT json, log)
    | some _ =>
      let json := JSON_NEW_OBJ
      -- Add SQL message (may be NULL = not available)
      let json := sqlMsgMember json sql_msg
      (send_json_error 402 "database_error" "Could not read domains from database table"
        (some json), log)

/-- The primitives of the vendored libraries (cJSON, the web server) that the handlers call
and that are not among the sources; they are parameters of the handlers. -/
structure Lib where
  /-- The function `cJSON_Parse` applied to the NUL-terminated buffer; `none` is NULL. -/
  cJSON_Parse : List Char → Option JSON
  /-- The function `mg_url_decode(src, strlen(src), dst, dst_len, 0)`: the decoded string left
  in `dst`. -/
  mg_url_decode : List Char → Nat → String

/-- Modelled from the spec: `cJSON_GetObjectItemCaseSensitive` of the JSON library (not among
the sources): the first member of the object with exactly this name, `none` (NULL) when there
is none or the value is not an object. -/
def cJSON_GetObjectItemCaseSensitive (obj : JSON) (name : String) : Option JSON :=
  match obj with
  | JSON.object members => members.lookup name
  | _ => none

/-- Modelled from the spec: `cJSON_IsString` of the JSON library (not among the sources);
false for NULL. -/
def cJSON_IsString : Option JSON → Bool
  | some (JSON.string _) => true
  | _ => false

/-- Modelled from the spec: `cJSON_IsBool` of the JSON library (not among the sources); false
for NULL. -/
def cJSON_IsBool : Option JSON → Bool
  | some (JSON.bool _) => true
  | _ => false

/-- The field `valuestring` of a cJSON string item. -/
def valuestring : Option JSON → String
  | some (JSON.string s) => s
  | _ => ""

/-- The test `elem->type == cJSON_True`. -/
def isTrue : Option JSON → Bool
  | some (JSON.bool true) => true
  | _ => false

/-- The function `api_dns_domainlist_POST` of `list.c`. -/
def api_dns_domainlist_POST (lib : Lib) (w : World) (conn : Conn) (exact whitelist : Bool)
    (log : List StoreCall) : Response × List StoreCall :=
  let (buffer, data_len) := mg_read conn (1024 - 1)
  if data_len < 1 ∨ data_len ≥ (1024 : Int) then
    (send_json_error 400 "bad_request" "No request body data" none, log)
  else
    match lib.cJSON_Parse buffer with
    | none =>
      (send_json_error 400 "bad_request" "Invalid request body data" none, log)
    | some obj =>
      let elem := cJSON_GetObjectItemCaseSensitive obj "domain"
      if !cJSON_IsString elem then
        (send_json_error 400 "bad_request" "No \"domain\" string in body data" none, log)
      else
        let domain := valuestring elem
        let enabled := true
        let elem := cJSON_GetObjectItemCaseSensitive obj "enabled"
        let enabled := if cJSON_IsBool elem then isTrue elem else enabled
        let comment : Option String := none
        let elem := cJSON_GetObjectItemCaseSensitive obj "comment"
        let comment := if cJSON_IsString elem then some (valuestring elem) else comment
        let json := JSON_NEW_OBJ
        let type := getTableType whitelist exact
        let sql_msg : Option String := none
        let log := log ++ [StoreCall.gravityDB_addToTable type domain enabled comment]
        match w.addToTable type domain enabled comment with
        | (true, _) =>
          -- Add domain
          let json := JSON_OBJ_COPY_STR json "domain" (some domain)
          -- Add enabled boolean
          let json := JSON_OBJ_ADD_BOOL json "enabled" enabled
          -- Add comment (may be NULL)
          let json :=
            match comment with
            | some c => JSON_OBJ_COPY_STR json "comment" (some c)
            | none => JSON_OBJ_ADD_NULL json "comment"
          -- Send success reply
          (JSON_SEND_OBJECT_CODE json 201, log)
        | (false, msg) =>
          let sql_msg := setMsg msg sql_msg
          -- Add domain
          let json := JSON_OBJ_COPY_STR json "domain" (some domain)
          -- Add enabled boolean
          let json := JSON_OBJ_ADD_BOOL json "enabled" enabled
          -- Add comment (may be NULL)
          let json :=
            match comment with
            | some c => JSON_OBJ_COPY_STR json "comment" (some c)
            | none => JSON_OBJ_ADD_NULL json "comment"
          -- Add SQL message (may be NULL = not available)
          let json := sqlMsgMember json sql_msg
          -- Send error reply
          (send_json_error 402 "database_error" "Could not add domain to gravity database"
            (some json), log)

/-- The value of `strrchr(s, '/') + 1`: the characters after the last `/` (the whole string
when it has none, which does not occur for a `local_uri`). -/
def afterLastSlash (s : List Char) : List Char :=
  (s.reverse.takeWhile (fun c => c != '/')).reverse

/-- The function `api_dns_domainlist_DELETE` of `list.c`. -/
def api_dns_domainlist_DELETE (lib : Lib) (w : World) (conn : Conn) (exact whitelist : Bool)
    (log : List StoreCall) : Response × List StoreCall :=
  -- Advance one character to strip "/"
  let encoded_uri := afterLastSlash conn.local_uri
  -- Decode URL (necessary for regular expressions, harmless for domains)
  let domain := lib.mg_url_decode encoded_uri (1024 - 1)
  let json := JSON_NEW_OBJ
  let type := getTableType whitelist exact
  let sql_msg : Option String := none
  let log := log ++ [StoreCall.gravityDB_delFromTable type domain]
  match w.delFromTable type domain with
  | (true, _) =>
    let json := JSON_OBJ_REF_STR json "key" "removed"
    let json := JSON_OBJ_REF_STR json "domain" domain
    (JSON_SEND_OBJECT_CODE json 200, log)
  | (false, msg) =>
    let sql_msg := setMsg msg sql_msg
    -- Add domain
    let json := JSON_OBJ_REF_STR json "domain" domain
    -- Add SQL message (may be NULL = not available)
    let json := sqlMsgMember json sql_msg
    -- Send error reply
    (send_json_error 402 "database_error" "Could not remove domain from database table"
      (some json), log)

/-- The function `api_dns_domainlist` of `list.c`.  The response is `none` when the handler
returns 0 without writing anything ("This results in error 404"). -/
def api_dns_domainlist (lib : Lib) (w : World) (conn : Conn) (exact whitelist : Bool)
    (log : List StoreCall) : Option Response × List StoreCall :=
  -- Verify requesting client is allowed to see this ressource
  if check_client_auth conn < 0 then
    (some send_json_unauthorized, log)
  else
    let method := http_method conn
    if method = http_method_t.HTTP_GET then
      let (r, log) := api_dns_domainlist_read w exact whitelist log
      (some r, log)
    else if method = http_method_t.HTTP_PUT then
      let (r, log) := api_dns_domainlist_POST lib w conn exact whitelist log
      (some r, log)
    else if method = http_method_t.HTTP_DELETE then
      let (r, log) := api_dns_domainlist_DELETE lib w conn exact whitelist log
      (some r, log)
    else
      -- This results in error 404
      (none, log)

/-! ## `api/network.c` -/

/-- The first part of the body of the outer loop of `api_network`: the object of a device
before its `ip` array is attached. -/
def networkItem (network : network_record) : JSON :=
  let item := JSON_NEW_OBJ
  let item := JSON_OBJ_ADD_NUMBER item "id" network.id
  let item := JSON_OBJ_COPY_STR item "hwaddr" (some network.hwaddr)
  let item := JSON_OBJ_COPY_STR item "interface" (some network.iface)
  let item := JSON_OBJ_COPY_STR item "name" (some network.name)
  let item := JSON_OBJ_ADD_NUMBER item "firstSeen" network.firstSeen
  let item := JSON_OBJ_ADD_NUMBER item "lastQuery" network.lastQuery
  let item := JSON_OBJ_ADD_NUMBER item "numQueries" network.numQueries
  let item := JSON_OBJ_COPY_STR item "macVendor" (some network.macVendor)
  item

/-- The `while(networkTable_readIPsGetRecord(&network_address, &sql_msg))` loop of
`api_network`, run on the answers of the inner cursor. -/
def readIPsLoop : List (Step network_addresses_record) → JSON → Option String →
    List StoreCall → JSON × Option String × List StoreCall
  | [], ip, sql_msg, log =>
    (ip, sql_msg, log ++ [StoreCall.networkTable_readIPsGetRecord])
  | Step.fail msg :: _, ip, sql_msg, log =>
    (ip, setMsg msg sql_msg, log ++ [StoreCall.networkTable_readIPsGetRecord])
  | Step.row network_address :: rest, ip, sql_msg, log =>
    readIPsLoop rest (JSON_ARRAY_COPY_STR ip network_address.ip) sql_msg
      (log ++ [StoreCall.networkTable_readIPsGetRecord])

/-- The `while(networkTable_readDevicesGetRecord(&network, &sql_msg))` loop of `api_network`,
run on the answers of the outer cursor.  The result is `Sum.inl` of the response when the loop
body returns from the handler, and `Sum.inr` of the array built and the final `sql_msg` when
the loop ends. -/
def readDevicesLoop (w : World) : List (Step network_record) → JSON → Option String →
    List StoreCall → (Response ⊕ (JSON × Option String)) × List StoreCall
  | [], json, sql_msg, log =>
    (Sum.inr (json, sql_msg), log ++ [StoreCall.networkTable_readDevicesGetRecord])
  | Step.fail msg :: _, json, sql_msg, log =>
    (Sum.inr (json, setMsg msg sql_msg),
      log ++ [StoreCall.networkTable_readDevicesGetRecord])
  | Step.row network :: rest, json, sql_msg, log =>
    let log := log ++ [StoreCall.networkTable_readDevicesGetRecord]
    let item := networkItem network
    -- Build array of all IP addresses known associated to this client
    let ip := JSON_NEW_ARRAY
    let log := log ++ [StoreCall.networkTable_readIPs network.id]
    match w.readIPs network.id with
    | Open.ok steps =>
      -- Walk known IP addresses
      let (ip, sql_msg, log) := readIPsLoop steps ip sql_msg log
      -- Possible error handling
      match sql_msg with
      | some m =>
        let json := JSON_NEW_OBJ
        -- Add item leading to the error when generating the error message
        let json := JSON_OBJ_ADD_ITEM json "last_item" item
        -- Add SQL message
        let json := JSON_OBJ_REF_STR json "sql_msg" m
        (Sum.inl (send_json_error 500 "database_error"
          "Could not read network details from database table (getting IP records)"
          (some json)), log)
      | none =>
        -- Finalize sub-query
        let log := log ++ [StoreCall.networkTable_readIPsFinalize]
        -- Add array of IP addresses to device
        let item := JSON_OBJ_ADD_ITEM item "ip" ip
        -- Add device to array of all devices
        readDevicesLoop w rest (JSON_ARRAY_ADD_ITEM json item) sql_msg log
    | Open.fail msg =>
      let sql_msg := setMsg msg sql_msg
      -- Add array of IP addresses to device
      let item := JSON_OBJ_ADD_ITEM item "ip" ip
      -- Add device to array of all devices
      readDevicesLoop w rest (JSON_ARRAY_ADD_ITEM json item) sql_msg log

/-- The function `api_network` of `network.c`. -/
def api_network (w : World) (conn : Conn) (log : List StoreCall) :
    Response × List StoreCall :=
  -- Verify requesting client is allowed to see this ressource
  if check_client_auth conn < 0 then
    (send_json_unauthorized, log)
  else
    -- Connect to database
    let sql_msg : Option String := none
    let log := log ++ [StoreCall.networkTable_readDevices]
    match w.readDevices with
    | Open.fail msg =>
      let sql_msg := setMsg msg sql_msg
      -- Add SQL message (may be NULL = not available)
      let json := JSON_NEW_OBJ
      let json := sqlMsgMember json sql_msg
      (send_json_error 500 "database_error"
        "Could not read network details from database table" (some json), log)
    | Open.ok steps =>
      -- Read record for a single device
      let json := JSON_NEW_ARRAY
      match readDevicesLoop w steps json sql_msg log with
      | (Sum.inl response, log) => (response, log)
      | (Sum.inr (json, sql_msg), log) =>
        match sql_msg with
        | some m =>
          let json := JSON_NEW_OBJ
          -- Add SQL message
          let json := JSON_OBJ_REF_STR json "sql_msg" m
          (send_json_error 500 "database_error"
            "Could not read network details from database table (step)" (some json), log)
        | none =>
          -- Finalize query
          let log := log ++ [StoreCall.networkTable_readDevicesFinalize]
          -- Return data to user
          (JSON_SEND_OBJECT json, log)

/-! ## Vocabulary of the statements -/

/-- The object appended to the outer array for a device whose inner cursor gave exactly the
addresses `ips`. -/
def deviceObject (network : network_record) (ips : List network_addresses_record) : JSON :=
  JSON_OBJ_ADD_ITEM (networkItem network) "ip" (JSON.array (ips.map (fun a => JSON.string a.ip)))

/-- The store calls logged for a device whose inner cursor gave exactly the addresses `ips`. -/
def deviceCalls (network : network_record) (ips : List network_addresses_record) :
    List StoreCall :=
  [StoreCall.networkTable_readDevicesGetRecord, StoreCall.networkTable_readIPs network.id] ++
    List.replicate ips.length StoreCall.networkTable_readIPsGetRecord ++
    [StoreCall.networkTable_readIPsGetRecord, StoreCall.networkTable_readIPsFinalize]

/-- Following the spec's words for the validated `enabled` of a PUT body: the body's
`enabled` when it is a JSON boolean, true otherwise. -/
def validatedEnabled (obj : JSON) : Bool :=
  match cJSON_GetObjectItemCaseSensitive obj "enabled" with
  | some (JSON.bool b) => b
  | _ => true

/-- Following the spec's words for the validated `comment` of a PUT body: the body's
`comment` when it is a string, absent otherwise. -/
def validatedComment (obj : JSON) : Option String :=
  match cJSON_GetObjectItemCaseSensitive obj "comment" with
  | some (JSON.string c) => some c
  | _ => none

/-- The JSON value "string or null" of an optional string. -/
def stringOrNull : Option String → JSON
  | some str => JSON.string str
  | none => JSON.null

/-! ## Sample inputs for the statements -/

/-- A sample library: the parser knows the bodies `{}` and `{"domain":"a"}` (the latter also
when followed by blanks), the URL decoder is the identity. -/
def sampleLib : Lib where
  cJSON_Parse := fun buffer =>
    if buffer = "\x7b\x7d".toList then some (JSON.object [])
    else if buffer.take 14 = "\x7b\"domain\":\"a\"\x7d".toList ∧
        (buffer.drop 14).all (fun c => c == ' ') then
      some (JSON.object [("domain", JSON.string "a")])
    else none
  mg_url_decode := fun src _ => String.mk src

/-- A sample allow-list row. -/
def sampleDomain : domainrecord :=
  { domain := "example.com", enabled := true, date_added := 1, date_modified := 2,
    comment := none }

/-- A second sample row. -/
def sampleDomain2 : domainrecord :=
  { domain := "example.org", enabled := false, date_added := 3, date_modified := 4,
    comment := some "c" }

/-- A sample device with identifier 1. -/
def sampleDevice1 : network_record :=
  { id := 1, hwaddr := "aa:bb", iface := "eth0", name := "one", firstSeen := 10,
    lastQuery := 20, numQueries := 3, macVendor := "v" }

/-- A sample device with identifier 2. -/
def sampleDevice2 : network_record :=
  { id := 2, hwaddr := "cc:dd", iface := "eth0", name := "two", firstSeen := 11,
    lastQuery := 21, numQueries := 4, macVendor := "v" }

/-- A store in which every operation succeeds: two rows in every domain table, two devices,
the first with one address and the second with two. -/
def sampleWorld : World where
  readTable := fun _ => Open.ok [Step.row sampleDomain, Step.row sampleDomain2]
  addToTable := fun _ _ _ _ => (true, none)
  delFromTable := fun _ _ => (true, none)
  readDevices := Open.ok [Step.row sampleDevice1, Step.row sampleDevice2]
  readIPs := fun id =>
    if id = 1 then Open.ok [Step.row { ip := "10.0.0.1" }]
    else Open.ok [Step.row { ip := "10.0.0.2" }, Step.row { ip := "10.0.0.3" }]

/-- The addresses of the sample devices in `sampleWorld`. -/
def sampleIPs (network : network_record) : List network_addresses_record :=
  if network.id = 1 then [{ ip := "10.0.0.1" }]
  else [{ ip := "10.0.0.2" }, { ip := "10.0.0.3" }]

/-- An authorized request with the given method and body. -/
def sampleConn (method : String) (body : List Char) : Conn :=
  { request_method := method, local_uri := "/api/dns/denylist/exact".toList,
    query_string := none, body := body, auth := 0 }

/-- A request that the authorization check rejects. -/
def rejectedConn (method : String) : Conn :=
  { request_method := method, local_uri := "/api/dns/denylist/exact".toList,
    query_string := none, body := "\x7b\"domain\":\"a\"\x7d".toList, auth := -1 }

/-- A store that differs from `sampleWorld` in what its three cursors answer. -/
def worldWith (table : Open domainrecord) (devices : Open network_record)
    (ips : Int → Open network_addresses_record) : World where
  readTable := fun _ => table
  addToTable := fun _ _ _ _ => (true, none)
  delFromTable := fun _ _ => (true, none)
  readDevices := devices
  readIPs := ips

/-- A request body of exactly 1024 bytes: the object `{"domain":"a"}` followed by 1010
blanks. -/
def oversizedBody : List Char :=
  "\x7b\"domain\":\"a\"\x7d".toList ++ List.replicate 1010 ' '

/-- A store with the two sample devices in which the addresses cursor of the first device
opens and gives one address, and opening the addresses cursor of the second device fails with
the given stored message. -/
def secondOpenFails (msg : Option String) : World :=
  worldWith (Open.ok []) (Open.ok [Step.row sampleDevice1, Step.row sampleDevice2])
    (fun id => if id = 1 then Open.ok [Step.row { ip := "10.0.0.1" }] else Open.fail msg)

/-- A store with the two sample devices in which opening the addresses cursor of the first
device fails with the message "no such table" and the addresses cursor of the second device
opens and gives one address. -/
def firstOpenFails : World :=
  worldWith (Open.ok []) (Open.ok [Step.row sampleDevice1, Step.row sampleDevice2])
    (fun id => if id = 1 then Open.fail (some "no such table")
      else Open.ok [Step.row { ip := "10.0.0.1" }])

/-- The member `error.data.last_item` of a response body, `none` when there is none. -/
def lastItem (r : Response) : Option JSON :=
  (cJSON_GetObjectItemCaseSensitive r.body "error").bind (fun error =>
    (cJSON_GetObjectItemCaseSensitive error "data").bind (fun data =>
      cJSON_GetObjectItemCaseSensitive data "last_item"))

end FTL

namespace FTL


/-- C1: `send_json_error` answers with exactly the given status code and the body
`{error: {key, message, data}}`, where `key` and `message` are the given strings and `data`
is JSON null without a context and the context value itself, nested, otherwise. -/
theorem send_json_error_envelope (code : Nat) (key message : String) (data : Option JSON) :
    (send_json_error code key message data).code = code ∧
    (send_json_error code key message data).body =
      JSON.object [("error", JSON.object [("key", JSON.string key),
        ("message", JSON.string message), ("data", data.getD JSON.null)])] := by
  cases data <;> exact ⟨rfl, rfl⟩

end FTL

namespace FTL

/-! ## Auxiliary facts about the cursor loops -/

theorem readTableLoop_rows (rows : List domainrecord) (tail : List (Step domainrecord))
    (acc : List JSON) (sql_msg : Option String) (log : List StoreCall) :
    readTableLoop (rows.map Step.row ++ tail) (JSON.array acc) sql_msg log =
      readTableLoop tail (JSON.array (acc ++ rows.map domainItem)) sql_msg
        (log ++ List.replicate rows.length StoreCall.gravityDB_readTableGetDomain) := by
  induction rows generalizing acc log with
  | nil => simp
  | cons r rows ih =>
    simp only [List.map_cons, List.cons_append, readTableLoop, JSON_ARRAY_ADD_ITEM,
      List.append_eq]
    rw [ih]
    simp [List.replicate_succ]

theorem readIPsLoop_rows (rows : List network_addresses_record)
    (tail : List (Step network_addresses_record)) (acc : List JSON)
    (sql_msg : Option String) (log : List StoreCall) :
    readIPsLoop (rows.map Step.row ++ tail) (JSON.array acc) sql_msg log =
      readIPsLoop tail (JSON.array (acc ++ rows.map (fun a => JSON.string a.ip))) sql_msg
        (log ++ List.replicate rows.length StoreCall.networkTable_readIPsGetRecord) := by
  induction rows generalizing acc log with
  | nil => simp
  | cons r rows ih =>
    simp only [List.map_cons, List.cons_append, readIPsLoop, JSON_ARRAY_COPY_STR,
      JSON_ARRAY_ADD_ITEM, List.append_eq]
    rw [ih]
    simp [List.replicate_succ]

theorem readDevicesLoop_rows (w : World) (ips : network_record → List network_addresses_record)
    (devs : List network_record) (tail : List (Step network_record))
    (hips : ∀ d ∈ devs, w.readIPs d.id = Open.ok ((ips d).map Step.row))
    (acc : List JSON) (log : List StoreCall) :
    readDevicesLoop w (devs.map Step.row ++ tail) (JSON.array acc) none log =
      readDevicesLoop w tail (JSON.array (acc ++ devs.map (fun d => deviceObject d (ips d))))
        none (log ++ (devs.map (fun d => deviceCalls d (ips d))).flatten) := by
  induction devs generalizing acc log with
  | nil => simp
  | cons d devs ih =>
    have hd := hips d (List.mem_cons_self _ _)
    have hrest : ∀ e ∈ devs, w.readIPs e.id = Open.ok ((ips e).map Step.row) :=
      fun e he => hips e (List.mem_cons_of_mem _ he)
    have hloop := readIPsLoop_rows (ips d) [] [] none
      (log ++ [StoreCall.networkTable_readDevicesGetRecord] ++
        [StoreCall.networkTable_readIPs d.id])
    simp only [List.append_nil, List.nil_append, readIPsLoop] at hloop
    simp only [List.map_cons, List.cons_append, readDevicesLoop, hd, JSON_NEW_ARRAY, hloop,
      JSON_ARRAY_ADD_ITEM, List.append_eq]
    rw [ih hrest]
    simp [deviceObject, deviceCalls, List.append_assoc]

/-! ## The success envelope -/

/-- C2: an authorized domain-list GET whose cursor opens and gives rows only answers 200
with the body `{data: <array of the row objects>}`, and an authorized network listing in which
every cursor opens and gives rows only answers 200 with `{data: <array of the device
objects>}`; the array is not sent bare. -/
theorem success_response_wraps_data (lib : Lib) (w : World) (conn : Conn)
    (exact whitelist : Bool) (log : List StoreCall) (rows : List domainrecord)
    (devs : List network_record) (ips : network_record → List network_addresses_record)
    (hauth : ¬ check_client_auth conn < 0) :
    (http_method conn = http_method_t.HTTP_GET →
      w.readTable (getTableType whitelist exact) = Open.ok (rows.map Step.row) →
      (api_dns_domainlist lib w conn exact whitelist log).1 =
        some ⟨200, JSON.object [("data", JSON.array (rows.map domainItem))]⟩) ∧
    (w.readDevices = Open.ok (devs.map Step.row) →
      (∀ d ∈ devs, w.readIPs d.id = Open.ok ((ips d).map Step.row)) →
      (api_network w conn log).1 =
        ⟨200, JSON.object [("data", JSON.array (devs.map (fun d => deviceObject d (ips d))))]⟩) := by
  constructor
  · intro hget hopen
    have hloop := readTableLoop_rows rows [] [] none
      (log ++ [StoreCall.gravityDB_readTable (getTableType whitelist exact)])
    simp only [List.append_nil, List.nil_append, readTableLoop] at hloop
    simp [api_dns_domainlist, hauth, hget, api_dns_domainlist_read, hopen, JSON_NEW_ARRAY,
      hloop, JSON_SEND_OBJECT]
  · intro hopen hips
    have hloop := readDevicesLoop_rows w ips devs [] hips []
      (log ++ [StoreCall.networkTable_readDevices])
    simp only [List.append_nil, List.nil_append, readDevicesLoop] at hloop
    simp [api_network, hauth, hopen, JSON_NEW_ARRAY, hloop, JSON_SEND_OBJECT]

/-- Witness of C2 on the sample store: the domain-list GET and the network listing. -/
theorem success_response_wraps_data_witness :
    (api_dns_domainlist sampleLib sampleWorld (sampleConn "GET" []) true false []).1 =
      some ⟨200, JSON.object [("data",
        JSON.array ([sampleDomain, sampleDomain2].map domainItem))]⟩ ∧
    (api_network sampleWorld (sampleConn "GET" []) []).1 =
      ⟨200, JSON.object [("data", JSON.array
        ([sampleDevice1, sampleDevice2].map (fun d => deviceObject d (sampleIPs d))))]⟩ :=
  ⟨(success_response_wraps_data sampleLib sampleWorld (sampleConn "GET" []) true false []
      [sampleDomain, sampleDomain2] [sampleDevice1, sampleDevice2] sampleIPs
      (by decide)).1 (by decide) rfl,
   (success_response_wraps_data sampleLib sampleWorld (sampleConn "GET" []) true false []
      [sampleDomain, sampleDomain2] [sampleDevice1, sampleDevice2] sampleIPs
      (by decide)).2 rfl (by
        intro d hd
        simp only [List.mem_cons, List.mem_singleton, List.not_mem_nil, or_false] at hd
        rcases hd with rfl | rfl <;> rfl)⟩

/-! ## The authorization gate -/

/-- C3: when `check_client_auth` rejects, `api_dns_domainlist` (whatever the method, list
kind and match mode) and `api_network` answer with the 401 envelope with key "unauthorized",
message "Unauthorized" and data null, and the log of store calls is left as it was: no store
operation is performed. -/
theorem unauthorized_before_store (lib : Lib) (w : World) (conn : Conn)
    (exact whitelist : Bool) (log : List StoreCall) (hreject : check_client_auth conn < 0) :
    api_dns_domainlist lib w conn exact whitelist log =
      (some ⟨401, JSON.object [("error", JSON.object [("key", JSON.string "unauthorized"),
        ("message", JSON.string "Unauthorized"), ("data", JSON.null)])]⟩, log) ∧
    api_network w conn log =
      (⟨401, JSON.object [("error", JSON.object [("key", JSON.string "unauthorized"),
        ("message", JSON.string "Unauthorized"), ("data", JSON.null)])]⟩, log) := by
  constructor
  · simp only [api_dns_domainlist, hreject, if_true]
    rfl
  · simp only [api_network, hreject, if_true]
    rfl

/-- Witness of C3: a rejected DELETE on the exact deny list and a rejected network listing,
starting from an empty log. -/
theorem unauthorized_before_store_witness :
    check_client_auth (rejectedConn "DELETE") < 0 ∧
    api_dns_domainlist sampleLib sampleWorld (rejectedConn "DELETE") true false [] =
      (some ⟨401, JSON.object [("error", JSON.object [("key", JSON.string "unauthorized"),
        ("message", JSON.string "Unauthorized"), ("data", JSON.null)])]⟩, []) ∧
    api_network sampleWorld (rejectedConn "DELETE") [] =
      (⟨401, JSON.object [("error", JSON.object [("key", JSON.string "unauthorized"),
        ("message", JSON.string "Unauthorized"), ("data", JSON.null)])]⟩, []) :=
  ⟨by decide, unauthorized_before_store sampleLib sampleWorld (rejectedConn "DELETE") true
    false [] (by decide)⟩

/-! ## `startsWith` -/

/-- C4 (evaluation of the code): for the prefix `/api` and the URI `/apix`, where the prefix
is not followed by a `/` boundary, `startsWith` returns the empty string and not NULL. -/
theorem startsWith_api_apix_is_empty_string :
    startsWith "/api".toList "/apix".toList = some [] ∧
    startsWith "/api".toList "/apix".toList ≠ none := by
  decide

/-! ## Body extraction -/

/-- For a request read through `mg_read` (not a GET with a query string), `http_get_payload`
accepts a body at or over `MAX_PAYLOAD_BYTES` and hands back its first
`MAX_PAYLOAD_BYTES - 1` bytes. -/
theorem http_get_payload_oversized (MAX_PAYLOAD_BYTES : Nat) (conn : Conn)
    (hmax : 2 ≤ MAX_PAYLOAD_BYTES)
    (hmethod : http_method conn ≠ http_method_t.HTTP_GET)
    (hlen : MAX_PAYLOAD_BYTES ≤ conn.body.length) :
    http_get_payload MAX_PAYLOAD_BYTES conn false =
      some (conn.body.take (MAX_PAYLOAD_BYTES - 1)) := by
  have hlen2 : (conn.body.take (MAX_PAYLOAD_BYTES - 1)).length = MAX_PAYLOAD_BYTES - 1 := by
    rw [List.length_take]; omega
  have hcheck : ¬ ((((conn.body.take (MAX_PAYLOAD_BYTES - 1)).length : Nat) : Int) < 1 ∨
      (((conn.body.take (MAX_PAYLOAD_BYTES - 1)).length : Nat) : Int) ≥
        (MAX_PAYLOAD_BYTES : Int)) := by
    rw [hlen2]; omega
  unfold http_get_payload
  simp only [Bool.false_eq_true, if_false]
  split
  · rename_i h _
    exact absurd h hmethod
  · simp only [mg_read, hcheck, if_false]

/-- A body of exactly `MAX_PAYLOAD_BYTES - 1` bytes is read in full by `http_get_payload`,
and an empty body makes it fail. -/
theorem http_get_payload_boundary (MAX_PAYLOAD_BYTES : Nat) (conn : Conn)
    (hmax : 2 ≤ MAX_PAYLOAD_BYTES)
    (hmethod : http_method conn ≠ http_method_t.HTTP_GET) :
    (conn.body.length = MAX_PAYLOAD_BYTES - 1 →
      http_get_payload MAX_PAYLOAD_BYTES conn false = some conn.body) ∧
    (conn.body = [] → http_get_payload MAX_PAYLOAD_BYTES conn false = none) := by
  constructor
  · intro hlen
    have htake : conn.body.take (MAX_PAYLOAD_BYTES - 1) = conn.body := by
      rw [← hlen]; exact List.take_length _
    have hcheck : ¬ (((conn.body.length : Nat) : Int) < 1 ∨
        ((conn.body.length : Nat) : Int) ≥ (MAX_PAYLOAD_BYTES : Int)) := by
      omega
    unfold http_get_payload
    simp only [Bool.false_eq_true, if_false]
    split
    · rename_i h _
      exact absurd h hmethod
    · simp only [mg_read, htake, hcheck, if_false]
  · intro hempty
    unfold http_get_payload
    simp only [Bool.false_eq_true, if_false]
    split
    · rename_i h _
      exact absurd h hmethod
    · simp [mg_read, hempty]

set_option maxRecDepth 100000 in
/-- C5 (evaluation of the code): a PUT whose body has exactly 1024 bytes, the cap of the
domain-list handler and of `get_POST_JSON`, is not rejected.  `mg_read` is asked for at most
1023 bytes, so the handler parses the first 1023 bytes, calls the store upsert and answers
201; `get_POST_JSON` returns the parsed prefix and `http_get_payload` (with the cap 1024)
hands back the first 1023 bytes. -/
theorem oversized_body_is_truncated_and_accepted :
    oversizedBody.length = 1024 ∧
    api_dns_domainlist sampleLib sampleWorld (sampleConn "PUT" oversizedBody) true false [] =
      (some ⟨201, JSON.object [("domain", JSON.string "a"), ("enabled", JSON.bool true),
        ("comment", JSON.null)]⟩,
       [StoreCall.gravityDB_addToTable TableType.GRAVITY_DOMAINLIST_EXACT_BLACKLIST "a" true
         none]) ∧
    get_POST_JSON sampleLib.cJSON_Parse (sampleConn "PUT" oversizedBody) =
      some (JSON.object [("domain", JSON.string "a")]) ∧
    http_get_payload 1024 (sampleConn "PUT" oversizedBody) false =
      some (oversizedBody.take 1023) := by
  refine ⟨by decide, rfl, rfl, rfl⟩

/-! ## The domain-list read -/

theorem steps_rows_or_fail {ρ : Type} (steps : List (Step ρ)) :
    (∃ rows : List ρ, steps = rows.map Step.row) ∨
    (∃ (pre : List ρ) (msg : Option String) (rest : List (Step ρ)),
      steps = pre.map Step.row ++ Step.fail msg :: rest) := by
  induction steps with
  | nil => exact Or.inl ⟨[], rfl⟩
  | cons s steps ih =>
    cases s with
    | fail msg => exact Or.inr ⟨[], msg, steps, rfl⟩
    | row r =>
      rcases ih with ⟨rows, h⟩ | ⟨pre, msg, rest, h⟩
      · exact Or.inl ⟨r :: rows, by simp [h]⟩
      · exact Or.inr ⟨r :: pre, msg, rest, by simp [h]⟩

theorem api_dns_domainlist_read_rows (w : World) (exact whitelist : Bool)
    (log : List StoreCall) (rows : List domainrecord)
    (hopen : w.readTable (getTableType whitelist exact) = Open.ok (rows.map Step.row)) :
    (api_dns_domainlist_read w exact whitelist log).1 =
      ⟨200, JSON.object [("data", JSON.array (rows.map domainItem))]⟩ := by
  have hloop := readTableLoop_rows rows [] [] none
    (log ++ [StoreCall.gravityDB_readTable (getTableType whitelist exact)])
  simp only [List.append_nil, List.nil_append, readTableLoop] at hloop
  simp [api_dns_domainlist_read, hopen, JSON_NEW_ARRAY, hloop, JSON_SEND_OBJECT]

theorem api_dns_domainlist_read_fail_msg (w : World) (exact whitelist : Bool)
    (log : List StoreCall) (pre : List domainrecord) (m : String)
    (rest : List (Step domainrecord))
    (hopen : w.readTable (getTableType whitelist exact) =
      Open.ok (pre.map Step.row ++ Step.fail (some m) :: rest)) :
    (api_dns_domainlist_read w exact whitelist log).1 =
      ⟨402, JSON.object [("error", JSON.object [("key", JSON.string "database_error"),
        ("message", JSON.string "Could not read domains from database table"),
        ("data", JSON.object [("sql_msg", JSON.string m)])])]⟩ := by
  have hloop := readTableLoop_rows pre (Step.fail (some m) :: rest) [] none
    (log ++ [StoreCall.gravityDB_readTable (getTableType whitelist exact)])
  simp only [List.nil_append, readTableLoop, setMsg] at hloop
  simp only [api_dns_domainlist_read, hopen, JSON_NEW_ARRAY, hloop]
  rfl

theorem api_dns_domainlist_read_fail_silent (w : World) (exact whitelist : Bool)
    (log : List StoreCall) (pre : List domainrecord) (rest : List (Step domainrecord))
    (hopen : w.readTable (getTableType whitelist exact) =
      Open.ok (pre.map Step.row ++ Step.fail none :: rest)) :
    (api_dns_domainlist_read w exact whitelist log).1 =
      ⟨200, JSON.object [("data", JSON.array (pre.map domainItem))]⟩ := by
  have hloop := readTableLoop_rows pre (Step.fail none :: rest) [] none
    (log ++ [StoreCall.gravityDB_readTable (getTableType whitelist exact)])
  simp only [List.nil_append, readTableLoop, setMsg] at hloop
  simp only [api_dns_domainlist_read, hopen, JSON_NEW_ARRAY, hloop]
  rfl

/-- C6 (counterexample): the cursor of the table gives one row, then a step fails without a
diagnostic message while a further row is still unread; `api_dns_domainlist_read` answers 200
with the one row already read as its `data`. -/
theorem domainlist_read_partial_list_as_success :
    (worldWith (Open.ok [Step.row sampleDomain, Step.fail none, Step.row sampleDomain2])
      (Open.ok []) (fun _ => Open.ok [])).readTable (getTableType false true) =
      Open.ok [Step.row sampleDomain, Step.fail none, Step.row sampleDomain2] ∧
    (api_dns_domainlist_read
      (worldWith (Open.ok [Step.row sampleDomain, Step.fail none, Step.row sampleDomain2])
        (Open.ok []) (fun _ => Open.ok [])) true false []).1 =
      ⟨200, JSON.object [("data", JSON.array [domainItem sampleDomain])]⟩ :=
  ⟨rfl, rfl⟩

/-- C6 (amended): when the cursor opened and a step fails with a diagnostic message from the
store before the result set is exhausted, `api_dns_domainlist_read` answers with the 402
"database_error" envelope (message "Could not read domains from database table") whose data
is `{sql_msg: <that message>}` and holds none of the rows already read; and when every
failing step of the cursor carries a diagnostic message, a 200 response is produced only if
every answer of the cursor was a row, and its `data` is then the array of all rows. -/
theorem domainlist_read_atomic_with_message (w : World) (exact whitelist : Bool)
    (log : List StoreCall) (steps : List (Step domainrecord))
    (hopen : w.readTable (getTableType whitelist exact) = Open.ok steps) :
    (∀ (pre : List domainrecord) (m : String) (rest : List (Step domainrecord)),
      steps = pre.map Step.row ++ Step.fail (some m) :: rest →
      (api_dns_domainlist_read w exact whitelist log).1 =
        ⟨402, JSON.object [("error", JSON.object [("key", JSON.string "database_error"),
          ("message", JSON.string "Could not read domains from database table"),
          ("data", JSON.object [("sql_msg", JSON.string m)])])]⟩) ∧
    ((∀ s ∈ steps, s ≠ Step.fail none) →
      (api_dns_domainlist_read w exact whitelist log).1.code = 200 →
      ∃ rows : List domainrecord, steps = rows.map Step.row ∧
        (api_dns_domainlist_read w exact whitelist log).1.body =
          JSON.object [("data", JSON.array (rows.map domainItem))]) := by
  constructor
  · intro pre m rest hsteps
    exact api_dns_domainlist_read_fail_msg w exact whitelist log pre m rest (hsteps ▸ hopen)
  · intro hmsg hcode
    rcases steps_rows_or_fail steps with ⟨rows, hrows⟩ | ⟨pre, msg, rest, hfail⟩
    · refine ⟨rows, hrows, ?_⟩
      rw [api_dns_domainlist_read_rows w exact whitelist log rows (hrows ▸ hopen)]
    · exfalso
      cases msg with
      | none => exact hmsg (Step.fail none) (by simp [hfail]) rfl
      | some m =>
        rw [api_dns_domainlist_read_fail_msg w exact whitelist log pre m rest
          (hfail ▸ hopen)] at hcode
        simp at hcode

/-- Witness of C6 (amended): a cursor whose second step fails with the message
"disk I/O error" gives the 402 envelope, and on `sampleWorld`, whose cursor gives two rows
and no failure, the 200 response carries both rows. -/
theorem domainlist_read_atomic_with_message_witness :
    (api_dns_domainlist_read
      (worldWith (Open.ok [Step.row sampleDomain, Step.fail (some "disk I/O error"),
        Step.row sampleDomain2]) (Open.ok []) (fun _ => Open.ok [])) true false []).1 =
      ⟨402, JSON.object [("error", JSON.object [("key", JSON.string "database_error"),
        ("message", JSON.string "Could not read domains from database table"),
        ("data", JSON.object [("sql_msg", JSON.string "disk I/O error")])])]⟩ ∧
    (∃ rows : List domainrecord,
      [Step.row sampleDomain, Step.row sampleDomain2] = rows.map Step.row ∧
      (api_dns_domainlist_read sampleWorld true false []).1.body =
        JSON.object [("data", JSON.array (rows.map domainItem))]) :=
  ⟨(domainlist_read_atomic_with_message
      (worldWith (Open.ok [Step.row sampleDomain, Step.fail (some "disk I/O error"),
        Step.row sampleDomain2]) (Open.ok []) (fun _ => Open.ok [])) true false []
      [Step.row sampleDomain, Step.fail (some "disk I/O error"), Step.row sampleDomain2]
      rfl).1 [sampleDomain] "disk I/O error" [Step.row sampleDomain2] rfl,
   (domainlist_read_atomic_with_message sampleWorld true false []
      [Step.row sampleDomain, Step.row sampleDomain2] rfl).2
      (by
        intro s hs
        simp only [List.mem_cons, List.mem_singleton, List.not_mem_nil, or_false] at hs
        rcases hs with rfl | rfl <;> exact fun h => Step.noConfusion h)
      rfl⟩

/-! ## Finalization of cursors -/

/-- Whenever the domain-table cursor opened, `api_dns_domainlist_read` makes
`gravityDB_readTableFinalize` its last store call, whatever the cursor answered. -/
theorem api_dns_domainlist_read_finalizes (w : World) (exact whitelist : Bool)
    (log : List StoreCall) (steps : List (Step domainrecord))
    (hopen : w.readTable (getTableType whitelist exact) = Open.ok steps) :
    (api_dns_domainlist_read w exact whitelist log).2.getLast? =
      some StoreCall.gravityDB_readTableFinalize := by
  simp only [api_dns_domainlist_read, hopen]
  rcases readTableLoop steps JSON_NEW_ARRAY none
    (log ++ [StoreCall.gravityDB_readTable (getTableType whitelist exact)]) with
    ⟨json, sql_msg, log2⟩
  cases sql_msg <;> simp

/-- C7 (evaluation of the code): in `api_network`, when the second step of the devices cursor
fails with a message, the handler answers 500 and its store calls end with the failing step:
the devices cursor it opened is never finalized.  When a step of the addresses cursor of a
device fails with a message, the handler answers 500 and neither the addresses cursor nor the
devices cursor is finalized. -/
theorem api_network_leaves_cursors_open :
    (api_network (worldWith (Open.ok [])
        (Open.ok [Step.row sampleDevice1, Step.fail (some "disk I/O error")])
        (fun _ => Open.ok [Step.row { ip := "10.0.0.1" }])) (sampleConn "GET" []) []).2 =
      [StoreCall.networkTable_readDevices, StoreCall.networkTable_readDevicesGetRecord,
        StoreCall.networkTable_readIPs 1, StoreCall.networkTable_readIPsGetRecord,
        StoreCall.networkTable_readIPsGetRecord, StoreCall.networkTable_readIPsFinalize,
        StoreCall.networkTable_readDevicesGetRecord] ∧
    (api_network (worldWith (Open.ok [])
        (Open.ok [Step.row sampleDevice1, Step.fail (some "disk I/O error")])
        (fun _ => Open.ok [Step.row { ip := "10.0.0.1" }])) (sampleConn "GET" []) []).1.code =
      500 ∧
    (api_network (worldWith (Open.ok []) (Open.ok [Step.row sampleDevice1])
        (fun _ => Open.ok [Step.row { ip := "10.0.0.1" }, Step.fail (some "disk I/O error")]))
        (sampleConn "GET" []) []).2 =
      [StoreCall.networkTable_readDevices, StoreCall.networkTable_readDevicesGetRecord,
        StoreCall.networkTable_readIPs 1, StoreCall.networkTable_readIPsGetRecord,
        StoreCall.networkTable_readIPsGetRecord] ∧
    (api_network (worldWith (Open.ok []) (Open.ok [Step.row sampleDevice1])
        (fun _ => Open.ok [Step.row { ip := "10.0.0.1" }, Step.fail (some "disk I/O error")]))
        (sampleConn "GET" []) []).1.code = 500 :=
  ⟨rfl, rfl, rfl, rfl⟩

/-! ## Failure of the inner cursor of the network listing -/

/-- C8: in an authorized network listing, when the devices before the k-th all had their
addresses read without error and a step of the k-th device's addresses cursor fails with the
store's message, `api_network` answers 500 with the "database_error" envelope whose data is
`{last_item: <object of the k-th device>, sql_msg: <the store's message>}`; no array occurs
anywhere in the response. -/
theorem api_network_inner_failure (w : World) (conn : Conn) (log : List StoreCall)
    (ips : network_record → List network_addresses_record) (pre : List network_record)
    (d : network_record) (rest : List (Step network_record))
    (got : List network_addresses_record) (m : String)
    (after : List (Step network_addresses_record))
    (hauth : ¬ check_client_auth conn < 0)
    (hopen : w.readDevices = Open.ok (pre.map Step.row ++ Step.row d :: rest))
    (hpre : ∀ p ∈ pre, w.readIPs p.id = Open.ok ((ips p).map Step.row))
    (hfail : w.readIPs d.id = Open.ok (got.map Step.row ++ Step.fail (some m) :: after)) :
    (api_network w conn log).1 =
      ⟨500, JSON.object [("error", JSON.object [("key", JSON.string "database_error"),
        ("message", JSON.string
          "Could not read network details from database table (getting IP records)"),
        ("data", JSON.object [("last_item", networkItem d),
          ("sql_msg", JSON.string m)])])]⟩ ∧
    (networkItem d = JSON.object [("id", JSON.number d.id),
      ("hwaddr", JSON.string d.hwaddr), ("interface", JSON.string d.iface),
      ("name", JSON.string d.name), ("firstSeen", JSON.number d.firstSeen),
      ("lastQuery", JSON.number d.lastQuery), ("numQueries", JSON.number d.numQueries),
      ("macVendor", JSON.string d.macVendor)]) ∧
    (api_network w conn log).1.body.hasArray = false := by
  have hresp : (api_network w conn log).1 =
      ⟨500, JSON.object [("error", JSON.object [("key", JSON.string "database_error"),
        ("message", JSON.string
          "Could not read network details from database table (getting IP records)"),
        ("data", JSON.object [("last_item", networkItem d),
          ("sql_msg", JSON.string m)])])]⟩ := by
    have hloop := readDevicesLoop_rows w ips pre (Step.row d :: rest) hpre []
      (log ++ [StoreCall.networkTable_readDevices])
    have hinner := fun l => readIPsLoop_rows got (Step.fail (some m) :: after) [] none l
    simp only [List.nil_append, readIPsLoop, setMsg] at hinner
    simp only [List.nil_append, readDevicesLoop, hfail, JSON_NEW_ARRAY, hinner] at hloop
    simp only [api_network, hauth, if_false, hopen, JSON_NEW_ARRAY, hloop]
    rfl
  refine ⟨hresp, rfl, ?_⟩
  rw [hresp]
  rfl

/-- Witness of C8: two devices, the first with one address read without error; the third
step of the second device's addresses cursor fails with "disk I/O error". -/
theorem api_network_inner_failure_witness :
    (api_network (worldWith (Open.ok [])
        (Open.ok [Step.row sampleDevice1, Step.row sampleDevice2])
        (fun id => if id = 1 then Open.ok [Step.row { ip := "10.0.0.1" }]
          else Open.ok [Step.row { ip := "10.0.0.2" }, Step.row { ip := "10.0.0.3" },
            Step.fail (some "disk I/O error")])) (sampleConn "GET" []) []).1 =
      ⟨500, JSON.object [("error", JSON.object [("key", JSON.string "database_error"),
        ("message", JSON.string
          "Could not read network details from database table (getting IP records)"),
        ("data", JSON.object [("last_item", networkItem sampleDevice2),
          ("sql_msg", JSON.string "disk I/O error")])])]⟩ :=
  (api_network_inner_failure (worldWith (Open.ok [])
      (Open.ok [Step.row sampleDevice1, Step.row sampleDevice2])
      (fun id => if id = 1 then Open.ok [Step.row { ip := "10.0.0.1" }]
        else Open.ok [Step.row { ip := "10.0.0.2" }, Step.row { ip := "10.0.0.3" },
          Step.fail (some "disk I/O error")])) (sampleConn "GET" []) []
    (fun _ => [{ ip := "10.0.0.1" }]) [sampleDevice1] sampleDevice2 []
    [{ ip := "10.0.0.2" }, { ip := "10.0.0.3" }] "disk I/O error" []
    (by decide) rfl
    (by
      intro p hp
      simp only [List.mem_singleton] at hp
      subst hp
      rfl)
    rfl).1

/-! ## The domain-list PUT -/

theorem enabled_eq_validatedEnabled (obj : JSON) :
    (if cJSON_IsBool (cJSON_GetObjectItemCaseSensitive obj "enabled") then
      isTrue (cJSON_GetObjectItemCaseSensitive obj "enabled") else true) =
      validatedEnabled obj := by
  unfold validatedEnabled
  rcases cJSON_GetObjectItemCaseSensitive obj "enabled" with _ | v
  · rfl
  · cases v with
    | bool b => cases b <;> rfl
    | _ => rfl

theorem comment_eq_validatedComment (obj : JSON) :
    (if cJSON_IsString (cJSON_GetObjectItemCaseSensitive obj "comment") then
      some (valuestring (cJSON_GetObjectItemCaseSensitive obj "comment")) else none) =
      validatedComment obj := by
  unfold validatedComment
  rcases cJSON_GetObjectItemCaseSensitive obj "comment" with _ | v
  · rfl
  · cases v <;> rfl

theorem api_dns_domainlist_PUT (lib : Lib) (w : World) (conn : Conn)
    (exact whitelist : Bool) (log : List StoreCall)
    (hauth : ¬ check_client_auth conn < 0)
    (hput : http_method conn = http_method_t.HTTP_PUT) :
    api_dns_domainlist lib w conn exact whitelist log =
      (some (api_dns_domainlist_POST lib w conn exact whitelist log).1,
        (api_dns_domainlist_POST lib w conn exact whitelist log).2) := by
  simp [api_dns_domainlist, hauth, hput]

theorem mg_read_check_passes (conn : Conn) (hbody : conn.body ≠ []) :
    ¬ ((mg_read conn (1024 - 1)).2 < 1 ∨ (mg_read conn (1024 - 1)).2 ≥ (1024 : Int)) := by
  have hlen : 0 < conn.body.length := List.length_pos.mpr hbody
  simp only [mg_read, List.length_take]
  omega

theorem api_dns_domainlist_POST_parsed (lib : Lib) (w : World) (conn : Conn)
    (exact whitelist : Bool) (log : List StoreCall) (obj : JSON) (domain : String)
    (hbody : conn.body ≠ [])
    (hparse : lib.cJSON_Parse (conn.body.take 1023) = some obj)
    (hdomain : cJSON_GetObjectItemCaseSensitive obj "domain" = some (JSON.string domain)) :
    api_dns_domainlist_POST lib w conn exact whitelist log =
      match w.addToTable (getTableType whitelist exact) domain (validatedEnabled obj)
        (validatedComment obj) with
      | (true, _) =>
        (⟨201, JSON.object [("domain", JSON.string domain),
          ("enabled", JSON.bool (validatedEnabled obj)),
          ("comment", stringOrNull (validatedComment obj))]⟩,
          log ++ [StoreCall.gravityDB_addToTable (getTableType whitelist exact) domain
            (validatedEnabled obj) (validatedComment obj)])
      | (false, msg) =>
        (⟨402, JSON.object [("error", JSON.object [("key", JSON.string "database_error"),
          ("message", JSON.string "Could not add domain to gravity database"),
          ("data", JSON.object [("domain", JSON.string domain),
            ("enabled", JSON.bool (validatedEnabled obj)),
            ("comment", stringOrNull (validatedComment obj)),
            ("sql_msg", stringOrNull msg)])])]⟩,
          log ++ [StoreCall.gravityDB_addToTable (getTableType whitelist exact) domain
            (validatedEnabled obj) (validatedComment obj)]) := by
  have hcheck := mg_read_check_passes conn hbody
  have hbuf : (mg_read conn (1024 - 1)).1 = conn.body.take 1023 := rfl
  have hstr : cJSON_IsString (cJSON_GetObjectItemCaseSensitive obj "domain") = true := by
    rw [hdomain]; rfl
  have hval : valuestring (cJSON_GetObjectItemCaseSensitive obj "domain") = domain := by
    rw [hdomain]; rfl
  unfold api_dns_domainlist_POST
  simp only [hcheck, if_false, hbuf, hparse, hstr, Bool.not_true, Bool.false_eq_true, hval,
    enabled_eq_validatedEnabled, comment_eq_validatedComment]
  rcases w.addToTable (getTableType whitelist exact) domain (validatedEnabled obj)
    (validatedComment obj) with ⟨ok, msg⟩
  cases ok
  · cases validatedComment obj <;> cases msg <;> rfl
  · cases validatedComment obj <;> rfl

/-- C9: for an authorized PUT whose (non-empty) body, as read by the handler, parses as JSON
with a string `domain`, the store upsert is called once, with the body's `domain`, with
`enabled` the body's boolean `enabled` or true, and with `comment` the body's string
`comment` or absent; when the upsert succeeds the response is 201 with `{domain, enabled,
comment or null}` of those values, and when it fails the response is the 402
"database_error" envelope with data `{domain, enabled, comment or null, sql_msg or null}`. -/
theorem put_echoes_validated_input (lib : Lib) (w : World) (conn : Conn)
    (exact whitelist : Bool) (log : List StoreCall) (obj : JSON) (domain : String)
    (hauth : ¬ check_client_auth conn < 0)
    (hput : http_method conn = http_method_t.HTTP_PUT)
    (hbody : conn.body ≠ [])
    (hparse : lib.cJSON_Parse (conn.body.take 1023) = some obj)
    (hdomain : cJSON_GetObjectItemCaseSensitive obj "domain" = some (JSON.string domain)) :
    (api_dns_domainlist lib w conn exact whitelist log).2 =
      log ++ [StoreCall.gravityDB_addToTable (getTableType whitelist exact) domain
        (validatedEnabled obj) (validatedComment obj)] ∧
    ((w.addToTable (getTableType whitelist exact) domain (validatedEnabled obj)
        (validatedComment obj)).1 = true →
      (api_dns_domainlist lib w conn exact whitelist log).1 =
        some ⟨201, JSON.object [("domain", JSON.string domain),
          ("enabled", JSON.bool (validatedEnabled obj)),
          ("comment", stringOrNull (validatedComment obj))]⟩) ∧
    ((w.addToTable (getTableType whitelist exact) domain (validatedEnabled obj)
        (validatedComment obj)).1 = false →
      (api_dns_domainlist lib w conn exact whitelist log).1 =
        some ⟨402, JSON.object [("error", JSON.object [("key", JSON.string "database_error"),
          ("message", JSON.string "Could not add domain to gravity database"),
          ("data", JSON.object [("domain", JSON.string domain),
            ("enabled", JSON.bool (validatedEnabled obj)),
            ("comment", stringOrNull (validatedComment obj)),
            ("sql_msg", stringOrNull (w.addToTable (getTableType whitelist exact) domain
              (validatedEnabled obj) (validatedComment obj)).2)])])]⟩) := by
  have hpost := api_dns_domainlist_POST_parsed lib w conn exact whitelist log obj domain hbody
    hparse hdomain
  rw [api_dns_domainlist_PUT lib w conn exact whitelist log hauth hput, hpost]
  rcases w.addToTable (getTableType whitelist exact) domain (validatedEnabled obj)
    (validatedComment obj) with ⟨ok, msg⟩
  cases ok
  · exact ⟨rfl, fun h => absurd h (by simp), fun _ => rfl⟩
  · exact ⟨rfl, fun _ => rfl, fun h => absurd h (by simp)⟩

/-- Witness of C9: the body `{"domain":"a"}` on the sample store, whose upsert succeeds. -/
theorem put_echoes_validated_input_witness :
    (api_dns_domainlist sampleLib sampleWorld
      (sampleConn "PUT" "\x7b\"domain\":\"a\"\x7d".toList) true false []).2 =
      [StoreCall.gravityDB_addToTable TableType.GRAVITY_DOMAINLIST_EXACT_BLACKLIST "a" true
        none] ∧
    (api_dns_domainlist sampleLib sampleWorld
      (sampleConn "PUT" "\x7b\"domain\":\"a\"\x7d".toList) true false []).1 =
      some ⟨201, JSON.object [("domain", JSON.string "a"), ("enabled", JSON.bool true),
        ("comment", JSON.null)]⟩ :=
  ⟨(put_echoes_validated_input sampleLib sampleWorld
      (sampleConn "PUT" "\x7b\"domain\":\"a\"\x7d".toList) true false []
      (JSON.object [("domain", JSON.string "a")]) "a" (by decide) (by decide) (by decide)
      rfl rfl).1,
   (put_echoes_validated_input sampleLib sampleWorld
      (sampleConn "PUT" "\x7b\"domain\":\"a\"\x7d".toList) true false []
      (JSON.object [("domain", JSON.string "a")]) "a" (by decide) (by decide) (by decide)
      rfl rfl).2.1 rfl⟩

/-- C10: for an authorized PUT whose (non-empty) body, as read by the handler, parses as
JSON but has no `domain` member or one that is not a string, `api_dns_domainlist` answers
with the 400 envelope with key "bad_request", the message `No "domain" string in body data`
and data null, and the log of store calls is left as it was: the upsert is not called. -/
theorem put_without_domain_is_bad_request (lib : Lib) (w : World) (conn : Conn)
    (exact whitelist : Bool) (log : List StoreCall) (obj : JSON)
    (hauth : ¬ check_client_auth conn < 0)
    (hput : http_method conn = http_method_t.HTTP_PUT)
    (hbody : conn.body ≠ [])
    (hparse : lib.cJSON_Parse (conn.body.take 1023) = some obj)
    (hdomain : ∀ str : String,
      cJSON_GetObjectItemCaseSensitive obj "domain" ≠ some (JSON.string str)) :
    api_dns_domainlist lib w conn exact whitelist log =
      (some ⟨400, JSON.object [("error", JSON.object [("key", JSON.string "bad_request"),
        ("message", JSON.string "No \"domain\" string in body data"),
        ("data", JSON.null)])]⟩, log) := by
  have hcheck := mg_read_check_passes conn hbody
  have hbuf : (mg_read conn (1024 - 1)).1 = conn.body.take 1023 := rfl
  have hstr : cJSON_IsString (cJSON_GetObjectItemCaseSensitive obj "domain") = false := by
    rcases hv : cJSON_GetObjectItemCaseSensitive obj "domain" with _ | v
    · rfl
    · cases v with
      | string str => exact absurd hv (hdomain str)
      | _ => rfl
  rw [api_dns_domainlist_PUT lib w conn exact whitelist log hauth hput]
  unfold api_dns_domainlist_POST
  simp only [hcheck, if_false, hbuf, hparse, hstr, Bool.not_false, if_true]
  rfl

/-- Witness of C10: the body `{}` on the sample store. -/
theorem put_without_domain_is_bad_request_witness :
    api_dns_domainlist sampleLib sampleWorld (sampleConn "PUT" "\x7b\x7d".toList) true false
      [] =
      (some ⟨400, JSON.object [("error", JSON.object [("key", JSON.string "bad_request"),
        ("message", JSON.string "No \"domain\" string in body data"),
        ("data", JSON.null)])]⟩, []) :=
  put_without_domain_is_bad_request sampleLib sampleWorld
    (sampleConn "PUT" "\x7b\x7d".toList) true false [] (JSON.object [])
    (by decide) (by decide) (by decide) rfl
    (by intro str h; simp [cJSON_GetObjectItemCaseSensitive] at h)

/-! ## Order of the network listing -/

/-- C11: in an authorized network listing in which every cursor opens and gives rows only,
the array handed to `JSON_SEND_OBJECT` has exactly one object per row of the devices cursor,
in the order of that cursor, and the `ip` array of each object holds exactly the addresses of
that device's addresses cursor, in the order of that cursor. -/
theorem api_network_keeps_store_order (w : World) (conn : Conn) (log : List StoreCall)
    (devs : List network_record) (ips : network_record → List network_addresses_record)
    (hauth : ¬ check_client_auth conn < 0)
    (hopen : w.readDevices = Open.ok (devs.map Step.row))
    (hips : ∀ d ∈ devs, w.readIPs d.id = Open.ok ((ips d).map Step.row)) :
    (api_network w conn log).1 =
      JSON_SEND_OBJECT (JSON.array (devs.map (fun d =>
        JSON.object [("id", JSON.number d.id), ("hwaddr", JSON.string d.hwaddr),
          ("interface", JSON.string d.iface), ("name", JSON.string d.name),
          ("firstSeen", JSON.number d.firstSeen), ("lastQuery", JSON.number d.lastQuery),
          ("numQueries", JSON.number d.numQueries), ("macVendor", JSON.string d.macVendor),
          ("ip", JSON.array ((ips d).map (fun a => JSON.string a.ip)))]))) := by
  have hloop := readDevicesLoop_rows w ips devs [] hips []
    (log ++ [StoreCall.networkTable_readDevices])
  simp only [List.append_nil, List.nil_append, readDevicesLoop] at hloop
  simp only [api_network, hauth, if_false, hopen, JSON_NEW_ARRAY, hloop]
  rfl

/-- Witness of C11 on the sample store: two devices, the first with one address and the
second with two. -/
theorem api_network_keeps_store_order_witness :
    (api_network sampleWorld (sampleConn "GET" []) []).1 =
      JSON_SEND_OBJECT (JSON.array [
        JSON.object [("id", JSON.number 1), ("hwaddr", JSON.string "aa:bb"),
          ("interface", JSON.string "eth0"), ("name", JSON.string "one"),
          ("firstSeen", JSON.number 10), ("lastQuery", JSON.number 20),
          ("numQueries", JSON.number 3), ("macVendor", JSON.string "v"),
          ("ip", JSON.array [JSON.string "10.0.0.1"])],
        JSON.object [("id", JSON.number 2), ("hwaddr", JSON.string "cc:dd"),
          ("interface", JSON.string "eth0"), ("name", JSON.string "two"),
          ("firstSeen", JSON.number 11), ("lastQuery", JSON.number 21),
          ("numQueries", JSON.number 4), ("macVendor", JSON.string "v"),
          ("ip", JSON.array [JSON.string "10.0.0.2", JSON.string "10.0.0.3"])]]) :=
  api_network_keeps_store_order sampleWorld (sampleConn "GET" []) []
    [sampleDevice1, sampleDevice2] sampleIPs (by decide) rfl (by
      intro d hd
      simp only [List.mem_cons, List.mem_singleton, List.not_mem_nil, or_false] at hd
      rcases hd with rfl | rfl <;> rfl)

/-! ## Failure to open the addresses cursor -/

theorem readDevicesLoop_open_fail (w : World) (d : network_record) (msg : Option String)
    (hfail : w.readIPs d.id = Open.fail msg) (rest : List (Step network_record))
    (acc : List JSON) (sql_msg : Option String) (log : List StoreCall) :
    readDevicesLoop w (Step.row d :: rest) (JSON.array acc) sql_msg log =
      readDevicesLoop w rest (JSON.array (acc ++ [deviceObject d []])) (setMsg msg sql_msg)
        (log ++ [StoreCall.networkTable_readDevicesGetRecord] ++
          [StoreCall.networkTable_readIPs d.id]) := by
  simp only [readDevicesLoop, hfail, JSON_NEW_ARRAY, JSON_ARRAY_ADD_ITEM, deviceObject,
    List.map_nil]

theorem readDevicesLoop_inl (w : World) (steps : List (Step network_record)) :
    ∀ (json : JSON) (sql_msg : Option String) (log : List StoreCall) (resp : Response)
      (log2 : List StoreCall),
      readDevicesLoop w steps json sql_msg log = (Sum.inl resp, log2) →
      ∃ (e : network_record) (steps2 : List (Step network_addresses_record)),
        w.readIPs e.id = Open.ok steps2 ∧ lastItem resp = some (networkItem e) := by
  induction steps with
  | nil => intro json sql_msg log resp log2 h; simp [readDevicesLoop] at h
  | cons s rest ih =>
    intro json sql_msg log resp log2 h
    cases s with
    | fail msg => simp [readDevicesLoop] at h
    | row n =>
      simp only [readDevicesLoop] at h
      cases hopen : w.readIPs n.id with
      | fail msg =>
        rw [hopen] at h
        exact ih _ _ _ _ _ h
      | ok steps2 =>
        rw [hopen] at h
        simp only at h
        rcases hl : readIPsLoop steps2 JSON_NEW_ARRAY sql_msg
          (log ++ [StoreCall.networkTable_readDevicesGetRecord] ++
            [StoreCall.networkTable_readIPs n.id]) with ⟨ip, sm, l3⟩
        rw [hl] at h
        cases sm with
        | none => exact ih _ _ _ _ _ h
        | some m =>
          simp only [Prod.mk.injEq, Sum.inl.injEq] at h
          refine ⟨n, steps2, hopen, ?_⟩
          rw [← h.1]
          rfl

theorem lastItem_send_json_error_null (code : Nat) (key message : String) :
    lastItem (send_json_error code key message none) = none := by
  rfl

theorem lastItem_send_json_error_sql_msg (code : Nat) (key message : String)
    (sql_msg : Option String) :
    lastItem (send_json_error code key message (some (sqlMsgMember JSON_NEW_OBJ sql_msg))) =
      none := by
  cases sql_msg <;> rfl

theorem lastItem_JSON_SEND_OBJECT (json : JSON) : lastItem (JSON_SEND_OBJECT json) = none := by
  rfl

theorem api_network_lastItem (w : World) (conn : Conn) (log : List StoreCall) (x : JSON)
    (h : lastItem (api_network w conn log).1 = some x) :
    ∃ (e : network_record) (steps2 : List (Step network_addresses_record)),
      w.readIPs e.id = Open.ok steps2 ∧ x = networkItem e := by
  unfold api_network at h
  split at h
  · simp only [send_json_unauthorized, lastItem_send_json_error_null] at h
    exact Option.noConfusion h
  · cases hopen : w.readDevices with
    | fail msg =>
      rw [hopen] at h
      simp only [lastItem_send_json_error_sql_msg] at h
      exact Option.noConfusion h
    | ok steps =>
      rw [hopen] at h
      simp only at h
      rcases hl : readDevicesLoop w steps JSON_NEW_ARRAY none
        (log ++ [StoreCall.networkTable_readDevices]) with ⟨res, l2⟩
      rw [hl] at h
      cases res with
      | inl resp =>
        obtain ⟨e, steps2, he, hlast⟩ := readDevicesLoop_inl w steps _ _ _ _ _ hl
        simp only at h
        rw [hlast] at h
        exact ⟨e, steps2, he, (Option.some.inj h).symm⟩
      | inr p =>
        rcases p with ⟨json, sm⟩
        cases sm with
        | none =>
          simp only [lastItem_JSON_SEND_OBJECT] at h
          exact Option.noConfusion h
        | some m =>
          have h2 := lastItem_send_json_error_sql_msg 500 "database_error"
            "Could not read network details from database table (step)" (some m)
          simp only [sqlMsgMember] at h2
          simp only [h2] at h
          exact Option.noConfusion h

theorem networkItem_id (e d : network_record) (h : networkItem e = networkItem d) :
    e.id = d.id := by
  simp [networkItem, JSON_OBJ_ADD_NUMBER, JSON_OBJ_COPY_STR, JSON_OBJ_ADD_ITEM, JSON_NEW_OBJ] at h
  exact h.1

/-- C12: in `api_network`, when `networkTable_readIPs` fails for a device, the loop body
produces no response: the device object is appended to the outer array with an empty `ip`
array and the loop goes on with the next row, carrying the stored message (if any) in the
shared `sql_msg`.  With no stored message the listing succeeds and contains that device with
`ip: []`; with a stored message and no further row the failure is reported by the check
after the loop, as `{sql_msg}` without a `last_item`; with a stored message and a next device
whose addresses cursor opens and gives rows only, the error names that next device as
`last_item`; and whatever the cursors answer, the response never carries the object of the
device whose open failed as its `last_item`. -/
theorem readIPs_open_failure_is_deferred (w : World) (conn : Conn) (log : List StoreCall)
    (ips : network_record → List network_addresses_record) (pre : List network_record)
    (d : network_record) (msg : Option String)
    (hauth : ¬ check_client_auth conn < 0)
    (hpre : ∀ p ∈ pre, w.readIPs p.id = Open.ok ((ips p).map Step.row))
    (hfail : w.readIPs d.id = Open.fail msg) :
    (∀ (rest : List (Step network_record)) (acc : List JSON) (sql_msg : Option String)
        (l : List StoreCall),
      readDevicesLoop w (Step.row d :: rest) (JSON.array acc) sql_msg l =
        readDevicesLoop w rest
          (JSON.array (acc ++ [JSON_OBJ_ADD_ITEM (networkItem d) "ip" (JSON.array [])]))
          (setMsg msg sql_msg)
          (l ++ [StoreCall.networkTable_readDevicesGetRecord] ++
            [StoreCall.networkTable_readIPs d.id])) ∧
    (∀ post : List network_record, msg = none →
      w.readDevices = Open.ok (pre.map Step.row ++ Step.row d :: post.map Step.row) →
      (∀ p ∈ post, w.readIPs p.id = Open.ok ((ips p).map Step.row)) →
      (api_network w conn log).1 =
        JSON_SEND_OBJECT (JSON.array (pre.map (fun p => deviceObject p (ips p)) ++
          JSON_OBJ_ADD_ITEM (networkItem d) "ip" (JSON.array []) ::
          post.map (fun p => deviceObject p (ips p))))) ∧
    (∀ m : String, msg = some m →
      w.readDevices = Open.ok (pre.map Step.row ++ [Step.row d]) →
      (api_network w conn log).1 =
        ⟨500, JSON.object [("error", JSON.object [("key", JSON.string "database_error"),
          ("message", JSON.string
            "Could not read network details from database table (step)"),
          ("data", JSON.object [("sql_msg", JSON.string m)])])]⟩) ∧
    (∀ (m : String) (e : network_record) (rest : List (Step network_record)),
      msg = some m →
      w.readDevices = Open.ok (pre.map Step.row ++ Step.row d :: Step.row e :: rest) →
      w.readIPs e.id = Open.ok ((ips e).map Step.row) →
      e.id ≠ d.id ∧
      (api_network w conn log).1 =
        ⟨500, JSON.object [("error", JSON.object [("key", JSON.string "database_error"),
          ("message", JSON.string
            "Could not read network details from database table (getting IP records)"),
          ("data", JSON.object [("last_item", networkItem e),
            ("sql_msg", JSON.string m)])])]⟩) ∧
    lastItem (api_network w conn log).1 ≠ some (networkItem d) := by
  have hstep := readDevicesLoop_open_fail w d msg hfail
  have hprefix := fun tail => readDevicesLoop_rows w ips pre tail hpre []
    (log ++ [StoreCall.networkTable_readDevices])
  refine ⟨fun rest acc sql_msg l => hstep rest acc sql_msg l, ?_, ?_, ?_, ?_⟩
  · intro post hmsg hopen hpost
    subst hmsg
    have hloop := hprefix (Step.row d :: post.map Step.row)
    rw [hstep] at hloop
    have htail := readDevicesLoop_rows w ips post [] hpost
      ([] ++ pre.map (fun p => deviceObject p (ips p)) ++ [deviceObject d []])
      (log ++ [StoreCall.networkTable_readDevices] ++
        (pre.map (fun p => deviceCalls p (ips p))).flatten ++
        [StoreCall.networkTable_readDevicesGetRecord] ++
        [StoreCall.networkTable_readIPs d.id])
    simp only [List.append_nil, readDevicesLoop] at htail
    simp only [setMsg, htail] at hloop
    simp only [api_network, hauth, if_false, hopen, JSON_NEW_ARRAY, hloop]
    simp [deviceObject]
  · intro m hmsg hopen
    subst hmsg
    have hloop := hprefix [Step.row d]
    rw [hstep] at hloop
    simp only [setMsg, readDevicesLoop] at hloop
    simp only [api_network, hauth, if_false, hopen, JSON_NEW_ARRAY, hloop]
    rfl
  · intro m e rest hmsg hopen he
    subst hmsg
    refine ⟨fun hid => ?_, ?_⟩
    · rw [hid, hfail] at he
      exact Open.noConfusion he
    · have hloop := hprefix (Step.row d :: Step.row e :: rest)
      rw [hstep] at hloop
      have hinner := fun l => readIPsLoop_rows (ips e) [] [] (some m) l
      simp only [List.nil_append, List.append_nil, readIPsLoop] at hinner
      simp only [setMsg, readDevicesLoop, he, JSON_NEW_ARRAY, hinner] at hloop
      simp only [api_network, hauth, if_false, hopen, JSON_NEW_ARRAY, hloop]
      rfl
  · intro h
    obtain ⟨e, steps2, he, hx⟩ := api_network_lastItem w conn log (networkItem d) h
    rw [← networkItem_id d e hx, hfail] at he
    exact Open.noConfusion he

/-- Witness of C12 on the two sample devices: the loop step for the first device when its
open fails; the second device's open failing without a message (the listing succeeds with
`ip: []`); the second device's open failing with a message (reported after the loop without
`last_item`); the first device's open failing with a message (the error names the second
device, and its `last_item` is not the first device). -/
theorem readIPs_open_failure_is_deferred_witness :
    readDevicesLoop firstOpenFails [Step.row sampleDevice1] (JSON.array []) none [] =
      readDevicesLoop firstOpenFails []
        (JSON.array ([] ++ [JSON_OBJ_ADD_ITEM (networkItem sampleDevice1) "ip" (JSON.array [])]))
        (setMsg (some "no such table") none)
        ([] ++ [StoreCall.networkTable_readDevicesGetRecord] ++
          [StoreCall.networkTable_readIPs sampleDevice1.id]) ∧
    (api_network (secondOpenFails none) (sampleConn "GET" []) []).1 =
      JSON_SEND_OBJECT (JSON.array
        ([sampleDevice1].map (fun p => deviceObject p [{ ip := "10.0.0.1" }]) ++
          JSON_OBJ_ADD_ITEM (networkItem sampleDevice2) "ip" (JSON.array []) ::
          ([] : List network_record).map (fun p => deviceObject p [{ ip := "10.0.0.1" }]))) ∧
    (api_network (secondOpenFails (some "no such table")) (sampleConn "GET" []) []).1 =
      ⟨500, JSON.object [("error", JSON.object [("key", JSON.string "database_error"),
        ("message", JSON.string "Could not read network details from database table (step)"),
        ("data", JSON.object [("sql_msg", JSON.string "no such table")])])]⟩ ∧
    (sampleDevice2.id ≠ sampleDevice1.id ∧
      (api_network firstOpenFails (sampleConn "GET" []) []).1 =
        ⟨500, JSON.object [("error", JSON.object [("key", JSON.string "database_error"),
          ("message", JSON.string
            "Could not read network details from database table (getting IP records)"),
          ("data", JSON.object [("last_item", networkItem sampleDevice2),
            ("sql_msg", JSON.string "no such table")])])]⟩) ∧
    lastItem (api_network firstOpenFails (sampleConn "GET" []) []).1 ≠
      some (networkItem sampleDevice1) :=
  ⟨(readIPs_open_failure_is_deferred firstOpenFails (sampleConn "GET" []) []
      (fun _ => [{ ip := "10.0.0.1" }]) [] sampleDevice1 (some "no such table") (by decide)
      (by intro p hp; cases hp) rfl).1 [] [] none [],
   (readIPs_open_failure_is_deferred (secondOpenFails none) (sampleConn "GET" []) []
      (fun _ => [{ ip := "10.0.0.1" }]) [sampleDevice1] sampleDevice2 none (by decide)
      (by
        intro p hp
        simp only [List.mem_singleton] at hp
        subst hp
        rfl) rfl).2.1 [] rfl rfl (by intro p hp; cases hp),
   (readIPs_open_failure_is_deferred (secondOpenFails (some "no such table"))
      (sampleConn "GET" []) [] (fun _ => [{ ip := "10.0.0.1" }]) [sampleDevice1]
      sampleDevice2 (some "no such table") (by decide)
      (by
        intro p hp
        simp only [List.mem_singleton] at hp
        subst hp
        rfl) rfl).2.2.1 "no such table" rfl rfl,
   (readIPs_open_failure_is_deferred firstOpenFails (sampleConn "GET" []) []
      (fun _ => [{ ip := "10.0.0.1" }]) [] sampleDevice1 (some "no such table") (by decide)
      (by intro p hp; cases hp) rfl).2.2.2.1 "no such table" sampleDevice2 [] rfl rfl rfl,
   (readIPs_open_failure_is_deferred firstOpenFails (sampleConn "GET" []) []
      (fun _ => [{ ip := "10.0.0.1" }]) [] sampleDevice1 (some "no such table") (by decide)
      (by intro p hp; cases hp) rfl).2.2.2.2⟩

end FTL
